import Mathlib

/-!
Verification of the TorchProfiling log parser/aggregator and the
instrumentation layer's log-line emitter.

The Lean development below is a shallow embedding of

  * `parse_one_log` from `src/module_logging/analysis_gpu_log.py`, and
  * the log lines written by `Tracer.pre_backward_hook_wrapper` from
    `src/python/module_logging/trace.py`.

Modelling conventions:

  * The input of `parse_one_log` is modelled as the list of log lines with
    their trailing newline already stripped (Python's `f.readlines()`
    yields lines ending in `"\n"`; every use of a line in the source
    either strips the newline with `rstrip("\n")`, passes the final token
    to `float()` which ignores surrounding whitespace, or is a substring
    or prefix test unaffected by the trailing newline, so stripping
    newlines up-front is observation-preserving; `rstrip("\n")` is kept in
    the model where the source calls it).
  * Python `float` values are modelled as rationals (`ℚ`); the parser only
    adds and compares such values, and every concrete log considered here
    carries short decimal literals, which floats represent exactly and add
    exactly at these magnitudes.
  * Python strings are `String`; the string operations the source uses
    (`startswith`, `in`, `split`, `rstrip("\n")`, `float`) are defined
    below over the character list of the string.
  * Python exceptions abort `parse_one_log` and no tables are returned to
    the caller, so the parse is modelled in `Except`: an error discards
    all accumulated state, i.e. yields no partial report.
  * The Python `dict` `total_time_dict` is modelled as an
    insertion-ordered association list with unique keys, matching dict
    update semantics.
  * The Python list `module_list` is used as a stack via
    `append` / `[-1]` / `pop()` on its right end; the model keeps the
    stack with its top at the head of a `List` (Python's `module_list[-1]`
    is the model's head, `append` is cons, `pop()` drops the head).
  * `parse_one_log` returns three pretty-printed tables built from
    `table_data`, `total_time_dict` (whose rendering loop is commented
    out in the source) and `total_iteration_time`; the model returns the
    final parser state, whose fields carry exactly the data those tables
    are built from.
-/

namespace TorchProfiling

/-- Python `s.startswith(p)`. -/
def pyStartsWith (s p : String) : Bool := p.data.isPrefixOf s.data

/-- Python `needle in hay` (substring containment), on the character list. -/
def containsSubAux (needle : List Char) : List Char → Bool
  | [] => needle.isPrefixOf []
  | c :: rest => needle.isPrefixOf (c :: rest) || containsSubAux needle rest

/-- Python `needle in hay` for strings. -/
def containsSub (hay needle : String) : Bool := containsSubAux needle.data hay.data

/-- Python `s.split(c)` for a single-character separator `c`, on the
character list: `"".split(c) = [""]`, separators are not kept, empty
fields are kept. -/
def splitOnChar (c : Char) : List Char → List (List Char)
  | [] => [[]]
  | x :: xs =>
    let r := splitOnChar c xs
    if x = c then [] :: r
    else
      match r with
      | [] => [[x]]
      | h :: t => (x :: h) :: t

/-- Python `s.split(c)` for strings (single-character separator). -/
def pySplit (s : String) (c : Char) : List String :=
  (splitOnChar c s.data).map (fun l => String.mk l)

/-- Python `s.rstrip("\n")`: remove all trailing newline characters. -/
def rstripNl (s : String) : String :=
  String.mk ((s.data.reverse.dropWhile (fun c => c = '\n')).reverse)

/-- The source's `line.rstrip("\n").split(":")[-1]`: the text after the
last colon of the line. `split` never returns an empty list, so the
`[-1]` access is total; the model uses `getLastD` with an unreachable
default. -/
def lastColonField (line : String) : String := (pySplit (rstripNl line) ':').getLastD ""

/-- The source's `line.split(" ")` followed by `strs[-1]`: the text after
the last space of the line. -/
def lastSpaceField (line : String) : String := (pySplit line ' ').getLastD ""

/-- One decimal digit, as in Python numeric literals. -/
def digitVal (c : Char) : Option ℕ :=
  if '0' ≤ c ∧ c ≤ '9' then some (c.toNat - '0'.toNat) else none

/-- Read a (possibly empty) all-digit character list as a natural number;
`none` when a non-digit occurs. -/
def digitsToNat : List Char → ℕ → Option ℕ
  | [], acc => some acc
  | c :: cs, acc =>
    match digitVal c with
    | some d => digitsToNat cs (acc * 10 + d)
    | none => none

/-- Python `float(s)`, modelled for plain decimal literals: optional
surrounding whitespace, optional sign, digits with an optional single
decimal point (`"2"`, `"2.0"`, `".5"`, `"1."`). Exponent and inf/nan
forms never occur in the traced logs and are out of the model, mapped to
`none` like any other malformed field. -/
def pyFloat (s : String) : Option ℚ :=
  let cs := (s.data.dropWhile (fun c => c = ' ')).reverse.dropWhile (fun c => c = ' ') |>.reverse
  let signAndRest : ℚ × List Char :=
    match cs with
    | '-' :: t => (-1, t)
    | '+' :: t => (1, t)
    | t => (1, t)
  match splitOnChar '.' signAndRest.2 with
  | [intPart] =>
    match intPart with
    | [] => none
    | _ => (digitsToNat intPart 0).map (fun n => signAndRest.1 * (n : ℚ))
  | [intPart, fracPart] =>
    if intPart = [] ∧ fracPart = [] then none
    else
      match digitsToNat intPart 0, digitsToNat fracPart 0 with
      | some i, some f =>
        some (signAndRest.1 * ((i : ℚ) + (f : ℚ) / (10 : ℚ) ^ fracPart.length))
      | _, _ => none
  | _ => none

/-- The iteration-delimiter test of `parse_one_log` (lines 36 and 44 of
the source): the line contains the three substrings `"iteration"`,
`"learning"` and `"loss"`. -/
def isIterMarker (line : String) : Bool :=
  containsSub line "iteration" && containsSub line "learning" && containsSub line "loss"

/-- The module-begin test of `parse_one_log` line 50: note the source
matches the literal `"[BEGINE BACKWARD]"` (with the extra `E`). -/
def isModuleBeginLine (line : String) : Bool :=
  pyStartsWith line "[BEGIN FORWARD]:" || pyStartsWith line "[BEGINE BACKWARD]"

/-- The module-end test of `parse_one_log` line 63. -/
def isModuleEndLine (line : String) : Bool :=
  pyStartsWith line "[END FORWARD]:" || pyStartsWith line "[END BACKWARD]"

/-- One row of `table_data`. The Python source stores a dict with keys
`"Module"`, `"Name"`, `"TOTAL TIME"`, `"MODULE TOTAL TIME"`, filling
unused cells with the empty string; the model uses `Option ℚ` for the
two numeric cells, `none` standing for the source's `""`. -/
structure Row where
  module : String
  name : String
  total_time : Option ℚ
  module_total_time : Option ℚ
deriving DecidableEq

/-- A module-summary row (source lines 52-58 and 64-70): only
`MODULE TOTAL TIME` is filled. -/
def moduleRow (t : ℚ) : Row := ⟨"", "", none, some t⟩

/-- A leaf operation row (source lines 99-104): `Module`, `Name` and
`TOTAL TIME` are filled. -/
def leafRow (m n : String) (t : ℚ) : Row := ⟨m, n, some t, none⟩

/-- The Python exceptions `parse_one_log` can raise while scanning lines:
`Exception("not find the module name in module list")` (line 77),
`IndexError` from `module_list[-1]` on an empty list (line 74),
`Exception("end symbol name {} is not equal to start symbol name {}")`
(lines 89-93), and `ValueError` from `float()` on a malformed field
(line 121). -/
inductive ParseErr where
  | nestingViolation
  | indexOutOfRange
  | symbolMismatch (end_name op_name : String)
  | valueError
deriving DecidableEq

/-- The mutable locals of `parse_one_log`, named as in the source. -/
structure ParseState where
  table_data : List Row
  collecting : Bool
  iteration_begin : Bool
  total_kernel_consumed : ℚ
  op_name : String
  total_time_dict : List (String × ℚ)
  total_iteration_time : ℚ
  module_list : List String
  module_total_kernel_consumed : ℚ
deriving DecidableEq

/-- The initial values of the locals (source lines 19-33). -/
def initState : ParseState :=
  { table_data := []
    collecting := false
    iteration_begin := false
    total_kernel_consumed := 0
    op_name := ""
    total_time_dict := []
    total_iteration_time := 0
    module_list := []
    module_total_kernel_consumed := 0 }

/-- Python dict update `d[k] += v` / `d[k] = v` (source lines 107-110),
on an insertion-ordered association list with unique keys. -/
def dictAdd (d : List (String × ℚ)) (k : String) (v : ℚ) : List (String × ℚ) :=
  if d.any (fun p => p.1 = k) then
    d.map (fun p => if p.1 = k then (p.1, p.2 + v) else p)
  else d ++ [(k, v)]

/-- The per-line dispatch of `parse_one_log` (source lines 50-124),
reached only for a line inside the iteration window that is not an
iteration marker. The source's `if` blocks are sequential, not `elif`:
a line is run through the module-begin block, then the module-end block,
then the symbol/duration logic, exactly as below. -/
def stepLine (st0 : ParseState) (line : String) : Except ParseErr ParseState := do
  -- lines 50-61: [BEGIN FORWARD]: / [BEGINE BACKWARD]
  let st1 :=
    if isModuleBeginLine line then
      let stf :=
        if 0 < st0.module_list.length ∧ 0 < st0.module_total_kernel_consumed then
          { st0 with table_data := st0.table_data ++ [moduleRow st0.module_total_kernel_consumed] }
        else st0
      { stf with
          module_list := lastColonField line :: stf.module_list
          module_total_kernel_consumed := 0 }
    else st0
  -- lines 63-77: [END FORWARD]: / [END BACKWARD]
  let st2 ←
    if isModuleEndLine line then
      let stf :=
        { st1 with
            table_data := st1.table_data ++ [moduleRow st1.module_total_kernel_consumed]
            module_total_kernel_consumed := 0 }
      match stf.module_list with
      | [] => Except.error ParseErr.indexOutOfRange
      | top :: rest =>
        if lastColonField line = top then Except.ok { stf with module_list := rest }
        else Except.error ParseErr.nestingViolation
    else Except.ok st1
  -- lines 79-83: when no op is open, only [START_SYMBOL]: has an effect
  if st2.collecting = false then
    if pyStartsWith line "[START_SYMBOL]:" then
      Except.ok { st2 with collecting := true, op_name := lastColonField line }
    else Except.ok st2
  -- lines 85-115: [END_SYMBOL]:
  else if pyStartsWith line "[END_SYMBOL]:" then
    let end_name := lastColonField line
    if containsSub end_name st2.op_name = false then
      Except.error (ParseErr.symbolMismatch end_name st2.op_name)
    else
      Except.ok
        { st2 with
            table_data :=
              st2.table_data ++
                [leafRow (st2.module_list.headD "") st2.op_name st2.total_kernel_consumed]
            total_time_dict := dictAdd st2.total_time_dict st2.op_name st2.total_kernel_consumed
            op_name := ""
            total_kernel_consumed := 0
            collecting := false }
  -- lines 118-124: DURATION:
  else if pyStartsWith line "DURATION:" then
    match pyFloat (lastSpaceField line) with
    | none => Except.error ParseErr.valueError
    | some time =>
      Except.ok
        { st2 with
            total_kernel_consumed := st2.total_kernel_consumed + time
            total_iteration_time := st2.total_iteration_time + time
            module_total_kernel_consumed :=
              st2.module_total_kernel_consumed + (st2.total_kernel_consumed + time) }
  else Except.ok st2

/-- The `for line in lines` loop of `parse_one_log` (source lines 34-47
plus the dispatch): before the first iteration marker every line is
skipped; a second marker breaks out of the loop; otherwise the line is
dispatched. -/
def runLines (st : ParseState) : List String → Except ParseErr ParseState
  | [] => Except.ok st
  | line :: rest =>
    if st.iteration_begin = false then
      if isIterMarker line then runLines { st with iteration_begin := true } rest
      else runLines st rest
    else if isIterMarker line then Except.ok st
    else
      match stepLine st line with
      | Except.error e => Except.error e
      | Except.ok st2 => runLines st2 rest

/-- `parse_one_log` over the (newline-stripped) lines of the log file.
The file-existence check of the source is outside the model: the model
takes the lines directly. -/
def parse_one_log (lines : List String) : Except ParseErr ParseState :=
  runLines initState lines

/-- The log line written by `Tracer.pre_backward_hook_wrapper` in
`src/python/module_logging/trace.py` (line 121):
`"[BEGIN BACKWARD]: {}_backward".format(name)`. -/
def pre_backward_log_line (name : String) : String :=
  "[BEGIN BACKWARD]: " ++ name ++ "_backward"

/-- The numeric value a DURATION line carries: the parse of its last
space-separated token, or 0 for a malformed token. The 0 default is only
a total-function device: on a malformed token `parse_one_log` raises
before any total is returned, so the default is never observable. -/
def durationValue (line : String) : ℚ :=
  match pyFloat (lastSpaceField line) with
  | some v => v
  | none => 0

/-- Specification-side tally, written from the words of claim C2 as
amended (not from the source): the sum of the values of the DURATION
lines that lie strictly between the opening and (optional) closing
iteration markers and appear while an operation is open. `iterOpen`
tracks being inside the iteration window; `opOpen` tracks an operation
being open, set by a `[START_SYMBOL]:` line and cleared by an
`[END_SYMBOL]:` line (a redundant `[START_SYMBOL]:` while open keeps it
open, and an `[END_SYMBOL]:` with no open operation leaves it closed).
Lines before the window do not change `opOpen`, since the parser skips
them entirely. `parse_one_log`'s returned iteration total is proved to
refine this tally. -/
def collectedDurationSum : Bool → Bool → List String → ℚ
  | _, _, [] => 0
  | false, opOpen, line :: rest =>
    if isIterMarker line then collectedDurationSum true opOpen rest
    else collectedDurationSum false opOpen rest
  | true, opOpen, line :: rest =>
    if isIterMarker line then 0
    else if pyStartsWith line "DURATION:" then
      (if opOpen then durationValue line else 0) + collectedDurationSum true opOpen rest
    else if pyStartsWith line "[START_SYMBOL]:" then collectedDurationSum true true rest
    else if pyStartsWith line "[END_SYMBOL]:" then collectedDurationSum true false rest
    else collectedDurationSum true opOpen rest

/-!
Helper lemmas: the five line categories the dispatch distinguishes are
told apart by their first characters, so a line matching one category's
prefix matches no other category's prefix.
-/

theorem pyStartsWith_shape {s p : String} (h : pyStartsWith s p = true) :
    ∃ t, s.data = p.data ++ t := by
  unfold pyStartsWith at h
  obtain ⟨t, ht⟩ := List.isPrefixOf_iff_prefix.mp h
  exact ⟨t, ht.symm⟩

theorem moduleBegin_shape {line : String} (h : isModuleBeginLine line = true) :
    ∃ t, line.data = '[' :: 'B' :: t := by
  unfold isModuleBeginLine at h
  rcases Bool.or_eq_true _ _ |>.mp h with h1 | h1 <;>
    obtain ⟨t, ht⟩ := pyStartsWith_shape h1
  · exact ⟨"EGIN FORWARD]:".data ++ t, by rw [ht]; rfl⟩
  · exact ⟨"EGINE BACKWARD]".data ++ t, by rw [ht]; rfl⟩

theorem moduleEnd_shape {line : String} (h : isModuleEndLine line = true) :
    ∃ t, line.data = '[' :: 'E' :: 'N' :: 'D' :: ' ' :: t := by
  unfold isModuleEndLine at h
  rcases Bool.or_eq_true _ _ |>.mp h with h1 | h1 <;>
    obtain ⟨t, ht⟩ := pyStartsWith_shape h1
  · exact ⟨"FORWARD]:".data ++ t, by rw [ht]; rfl⟩
  · exact ⟨"BACKWARD]".data ++ t, by rw [ht]; rfl⟩

theorem startSymbol_shape {line : String} (h : pyStartsWith line "[START_SYMBOL]:" = true) :
    ∃ t, line.data = '[' :: 'S' :: t := by
  obtain ⟨t, ht⟩ := pyStartsWith_shape h
  exact ⟨"TART_SYMBOL]:".data ++ t, by rw [ht]; rfl⟩

theorem endSymbol_shape {line : String} (h : pyStartsWith line "[END_SYMBOL]:" = true) :
    ∃ t, line.data = '[' :: 'E' :: 'N' :: 'D' :: '_' :: t := by
  obtain ⟨t, ht⟩ := pyStartsWith_shape h
  exact ⟨"SYMBOL]:".data ++ t, by rw [ht]; rfl⟩

theorem duration_shape {line : String} (h : pyStartsWith line "DURATION:" = true) :
    ∃ t, line.data = 'D' :: t := by
  obtain ⟨t, ht⟩ := pyStartsWith_shape h
  exact ⟨"URATION:".data ++ t, by rw [ht]; rfl⟩

theorem excl_of_lB {line : String} {t : List Char} (ht : line.data = '[' :: 'B' :: t) :
    isModuleEndLine line = false ∧ pyStartsWith line "[START_SYMBOL]:" = false ∧
      pyStartsWith line "[END_SYMBOL]:" = false ∧ pyStartsWith line "DURATION:" = false := by
  refine ⟨?_, ?_, ?_, ?_⟩ <;>
    simp [isModuleEndLine, pyStartsWith, ht, List.isPrefixOf]

theorem excl_of_lEND_space {line : String} {t : List Char}
    (ht : line.data = '[' :: 'E' :: 'N' :: 'D' :: ' ' :: t) :
    isModuleBeginLine line = false ∧ pyStartsWith line "[START_SYMBOL]:" = false ∧
      pyStartsWith line "[END_SYMBOL]:" = false ∧ pyStartsWith line "DURATION:" = false := by
  refine ⟨?_, ?_, ?_, ?_⟩ <;>
    simp [isModuleBeginLine, pyStartsWith, ht, List.isPrefixOf]

theorem excl_of_lS {line : String} {t : List Char} (ht : line.data = '[' :: 'S' :: t) :
    isModuleBeginLine line = false ∧ isModuleEndLine line = false ∧
      pyStartsWith line "[END_SYMBOL]:" = false ∧ pyStartsWith line "DURATION:" = false := by
  refine ⟨?_, ?_, ?_, ?_⟩ <;>
    simp [isModuleBeginLine, isModuleEndLine, pyStartsWith, ht, List.isPrefixOf]

theorem excl_of_lEND_underscore {line : String} {t : List Char}
    (ht : line.data = '[' :: 'E' :: 'N' :: 'D' :: '_' :: t) :
    isModuleBeginLine line = false ∧ isModuleEndLine line = false ∧
      pyStartsWith line "DURATION:" = false := by
  refine ⟨?_, ?_, ?_⟩ <;>
    simp [isModuleBeginLine, isModuleEndLine, pyStartsWith, ht, List.isPrefixOf]

theorem excl_of_D {line : String} {t : List Char} (ht : line.data = 'D' :: t) :
    isModuleBeginLine line = false ∧ isModuleEndLine line = false ∧
      pyStartsWith line "[START_SYMBOL]:" = false ∧
      pyStartsWith line "[END_SYMBOL]:" = false := by
  refine ⟨?_, ?_, ?_, ?_⟩ <;>
    simp [isModuleBeginLine, isModuleEndLine, pyStartsWith, ht, List.isPrefixOf]

/-!
Helper lemmas: the effect of `stepLine` on each line category, mirroring
the source's dispatch case by case.
-/

theorem stepLine_moduleBegin_flush (st : ParseState) {line : String}
    (h : isModuleBeginLine line = true)
    (hc : 0 < st.module_list.length ∧ 0 < st.module_total_kernel_consumed) :
    stepLine st line = Except.ok
      { st with
          table_data := st.table_data ++ [moduleRow st.module_total_kernel_consumed]
          module_list := lastColonField line :: st.module_list
          module_total_kernel_consumed := 0 } := by
  obtain ⟨t, ht⟩ := moduleBegin_shape h
  obtain ⟨hE, hS, hES, hD⟩ := excl_of_lB ht
  cases hcol : st.collecting <;>
    simp [stepLine, h, hE, hS, hES, hD, hc, hcol, Bind.bind, Except.bind]

theorem stepLine_moduleBegin_noflush (st : ParseState) {line : String}
    (h : isModuleBeginLine line = true)
    (hc : ¬(0 < st.module_list.length ∧ 0 < st.module_total_kernel_consumed)) :
    stepLine st line = Except.ok
      { st with
          module_list := lastColonField line :: st.module_list
          module_total_kernel_consumed := 0 } := by
  obtain ⟨t, ht⟩ := moduleBegin_shape h
  obtain ⟨hE, hS, hES, hD⟩ := excl_of_lB ht
  cases hcol : st.collecting <;>
    simp [stepLine, h, hE, hS, hES, hD, hc, hcol, Bind.bind, Except.bind]

theorem stepLine_moduleEnd_empty (st : ParseState) {line : String}
    (h : isModuleEndLine line = true) (hstack : st.module_list = []) :
    stepLine st line = Except.error ParseErr.indexOutOfRange := by
  obtain ⟨t, ht⟩ := moduleEnd_shape h
  obtain ⟨hB, hS, hES, hD⟩ := excl_of_lEND_space ht
  simp [stepLine, h, hB, hS, hES, hD, hstack, Bind.bind, Except.bind]

theorem stepLine_moduleEnd_match (st : ParseState) {line : String} {tl : List String}
    (h : isModuleEndLine line = true) (hstack : st.module_list = lastColonField line :: tl) :
    stepLine st line = Except.ok
      { st with
          table_data := st.table_data ++ [moduleRow st.module_total_kernel_consumed]
          module_list := tl
          module_total_kernel_consumed := 0 } := by
  obtain ⟨t, ht⟩ := moduleEnd_shape h
  obtain ⟨hB, hS, hES, hD⟩ := excl_of_lEND_space ht
  cases hcol : st.collecting <;>
    simp [stepLine, h, hB, hS, hES, hD, hstack, hcol, Bind.bind, Except.bind]

theorem stepLine_moduleEnd_mismatch (st : ParseState) {line : String} {top : String}
    {tl : List String}
    (h : isModuleEndLine line = true) (hstack : st.module_list = top :: tl)
    (hname : lastColonField line ≠ top) :
    stepLine st line = Except.error ParseErr.nestingViolation := by
  obtain ⟨t, ht⟩ := moduleEnd_shape h
  obtain ⟨hB, hS, hES, hD⟩ := excl_of_lEND_space ht
  simp [stepLine, h, hB, hS, hES, hD, hstack, hname, Bind.bind, Except.bind]

theorem stepLine_startSymbol_open (st : ParseState) {line : String}
    (h : pyStartsWith line "[START_SYMBOL]:" = true) (hcol : st.collecting = false) :
    stepLine st line = Except.ok
      { st with collecting := true, op_name := lastColonField line } := by
  obtain ⟨t, ht⟩ := startSymbol_shape h
  obtain ⟨hB, hE, hES, hD⟩ := excl_of_lS ht
  simp [stepLine, h, hB, hE, hES, hD, hcol, Bind.bind, Except.bind]

theorem stepLine_startSymbol_ignored (st : ParseState) {line : String}
    (h : pyStartsWith line "[START_SYMBOL]:" = true) (hcol : st.collecting = true) :
    stepLine st line = Except.ok st := by
  obtain ⟨t, ht⟩ := startSymbol_shape h
  obtain ⟨hB, hE, hES, hD⟩ := excl_of_lS ht
  simp [stepLine, h, hB, hE, hES, hD, hcol, Bind.bind, Except.bind]

theorem stepLine_endSymbol_mismatch (st : ParseState) {line : String}
    (h : pyStartsWith line "[END_SYMBOL]:" = true) (hcol : st.collecting = true)
    (hsub : containsSub (lastColonField line) st.op_name = false) :
    stepLine st line =
      Except.error (ParseErr.symbolMismatch (lastColonField line) st.op_name) := by
  obtain ⟨t, ht⟩ := endSymbol_shape h
  obtain ⟨hB, hE, hD⟩ := excl_of_lEND_underscore ht
  simp [stepLine, h, hB, hE, hD, hcol, hsub, Bind.bind, Except.bind]

theorem stepLine_endSymbol_match (st : ParseState) {line : String}
    (h : pyStartsWith line "[END_SYMBOL]:" = true) (hcol : st.collecting = true)
    (hsub : containsSub (lastColonField line) st.op_name = true) :
    stepLine st line = Except.ok
      { st with
          table_data := st.table_data ++
            [leafRow (st.module_list.headD "") st.op_name st.total_kernel_consumed]
          total_time_dict := dictAdd st.total_time_dict st.op_name st.total_kernel_consumed
          op_name := ""
          total_kernel_consumed := 0
          collecting := false } := by
  obtain ⟨t, ht⟩ := endSymbol_shape h
  obtain ⟨hB, hE, hD⟩ := excl_of_lEND_underscore ht
  simp [stepLine, h, hB, hE, hD, hcol, hsub, Bind.bind, Except.bind]

theorem stepLine_duration_collecting (st : ParseState) {line : String} {v : ℚ}
    (h : pyStartsWith line "DURATION:" = true) (hcol : st.collecting = true)
    (hv : pyFloat (lastSpaceField line) = some v) :
    stepLine st line = Except.ok
      { st with
          total_kernel_consumed := st.total_kernel_consumed + v
          total_iteration_time := st.total_iteration_time + v
          module_total_kernel_consumed :=
            st.module_total_kernel_consumed + (st.total_kernel_consumed + v) } := by
  obtain ⟨t, ht⟩ := duration_shape h
  obtain ⟨hB, hE, hS, hES⟩ := excl_of_D ht
  simp [stepLine, h, hB, hE, hS, hES, hcol, hv, Bind.bind, Except.bind]

theorem stepLine_duration_skipped (st : ParseState) {line : String}
    (h : pyStartsWith line "DURATION:" = true) (hcol : st.collecting = false) :
    stepLine st line = Except.ok st := by
  obtain ⟨t, ht⟩ := duration_shape h
  obtain ⟨hB, hE, hS, hES⟩ := excl_of_D ht
  simp [stepLine, h, hB, hE, hS, hES, hcol, Bind.bind, Except.bind]

theorem runLines_cons_step {st st2 : ParseState} {line : String} {rest : List String}
    (hIt : st.iteration_begin = true) (hm : isIterMarker line = false)
    (hstep : stepLine st line = Except.ok st2) :
    runLines st (line :: rest) = runLines st2 rest := by
  simp [runLines, hIt, hm, hstep]

theorem runLines_cons_err {st : ParseState} {line : String} {rest : List String}
    {e : ParseErr}
    (hIt : st.iteration_begin = true) (hm : isIterMarker line = false)
    (hstep : stepLine st line = Except.error e) :
    runLines st (line :: rest) = Except.error e := by
  simp [runLines, hIt, hm, hstep]

theorem stepLine_notCollecting_other (st : ParseState) {line : String}
    (hB : isModuleBeginLine line = false) (hE : isModuleEndLine line = false)
    (hS : pyStartsWith line "[START_SYMBOL]:" = false)
    (hcol : st.collecting = false) :
    stepLine st line = Except.ok st := by
  simp [stepLine, hB, hE, hS, hcol, Bind.bind, Except.bind]

theorem stepLine_collecting_other (st : ParseState) {line : String}
    (hB : isModuleBeginLine line = false) (hE : isModuleEndLine line = false)
    (hES : pyStartsWith line "[END_SYMBOL]:" = false)
    (hD : pyStartsWith line "DURATION:" = false)
    (hcol : st.collecting = true) :
    stepLine st line = Except.ok st := by
  simp [stepLine, hB, hE, hES, hD, hcol, Bind.bind, Except.bind]

theorem stepLine_duration_malformed (st : ParseState) {line : String}
    (h : pyStartsWith line "DURATION:" = true) (hcol : st.collecting = true)
    (hv : pyFloat (lastSpaceField line) = none) :
    stepLine st line = Except.error ParseErr.valueError := by
  obtain ⟨t, ht⟩ := duration_shape h
  obtain ⟨hB, hE, hS, hES⟩ := excl_of_D ht
  simp [stepLine, h, hB, hE, hS, hES, hcol, hv, Bind.bind, Except.bind]

/-- On every successful step — whatever the line is — the iteration flag
is untouched, the iteration total grows exactly by the line's duration
value when it is a DURATION line processed with an operation open and by
nothing otherwise, and the collecting flag becomes true after a
`[START_SYMBOL]:` line, false after an `[END_SYMBOL]:` line, and is
otherwise unchanged. -/
theorem stepLine_ok_invariants {st st2 : ParseState} {line : String}
    (h : stepLine st line = Except.ok st2) :
    st2.iteration_begin = st.iteration_begin ∧
    st2.collecting =
      (if pyStartsWith line "[START_SYMBOL]:" = true then true
       else if pyStartsWith line "[END_SYMBOL]:" = true then false
       else st.collecting) ∧
    st2.total_iteration_time = st.total_iteration_time +
      (if st.collecting = true ∧ pyStartsWith line "DURATION:" = true then
        durationValue line
      else 0) := by
  by_cases hB : isModuleBeginLine line = true
  · obtain ⟨t, ht⟩ := moduleBegin_shape hB
    obtain ⟨hE, hS, hES, hD⟩ := excl_of_lB ht
    by_cases hc : 0 < st.module_list.length ∧ 0 < st.module_total_kernel_consumed
    · rw [stepLine_moduleBegin_flush st hB hc] at h
      simp only [Except.ok.injEq] at h
      subst h
      exact ⟨rfl, by simp [hS, hES], by simp [hD]⟩
    · rw [stepLine_moduleBegin_noflush st hB hc] at h
      simp only [Except.ok.injEq] at h
      subst h
      exact ⟨rfl, by simp [hS, hES], by simp [hD]⟩
  · by_cases hE : isModuleEndLine line = true
    · obtain ⟨t, ht⟩ := moduleEnd_shape hE
      obtain ⟨hB2, hS, hES, hD⟩ := excl_of_lEND_space ht
      rcases hstack : st.module_list with _ | ⟨top, tl⟩
      · rw [stepLine_moduleEnd_empty st hE hstack] at h
        simp at h
      · by_cases hname : lastColonField line = top
        · rw [stepLine_moduleEnd_match st hE (by rw [hstack, hname])] at h
          simp only [Except.ok.injEq] at h
          subst h
          exact ⟨rfl, by simp [hS, hES], by simp [hD]⟩
        · rw [stepLine_moduleEnd_mismatch st hE hstack hname] at h
          simp at h
    · by_cases hS : pyStartsWith line "[START_SYMBOL]:" = true
      · obtain ⟨t, ht⟩ := startSymbol_shape hS
        obtain ⟨hB2, hE2, hES, hD⟩ := excl_of_lS ht
        cases hcol : st.collecting
        · rw [stepLine_startSymbol_open st hS hcol] at h
          simp only [Except.ok.injEq] at h
          subst h
          exact ⟨rfl, by simp [hS], by simp [hcol, hD]⟩
        · rw [stepLine_startSymbol_ignored st hS hcol] at h
          simp only [Except.ok.injEq] at h
          subst h
          exact ⟨rfl, by simp [hS, hcol], by simp [hD]⟩
      · have hS2 : pyStartsWith line "[START_SYMBOL]:" = false := by simpa using hS
        by_cases hES : pyStartsWith line "[END_SYMBOL]:" = true
        · obtain ⟨t, ht⟩ := endSymbol_shape hES
          obtain ⟨hB2, hE2, hD⟩ := excl_of_lEND_underscore ht
          cases hcol : st.collecting
          · rw [stepLine_notCollecting_other st hB2 hE2 hS2 hcol] at h
            simp only [Except.ok.injEq] at h
            subst h
            exact ⟨rfl, by simp [hS2, hES, hcol], by simp [hD]⟩
          · by_cases hsub : containsSub (lastColonField line) st.op_name = true
            · rw [stepLine_endSymbol_match st hES hcol hsub] at h
              simp only [Except.ok.injEq] at h
              subst h
              exact ⟨rfl, by simp [hS2, hES], by simp [hD]⟩
            · have hsub2 : containsSub (lastColonField line) st.op_name = false := by
                simpa using hsub
              rw [stepLine_endSymbol_mismatch st hES hcol hsub2] at h
              simp at h
        · have hES2 : pyStartsWith line "[END_SYMBOL]:" = false := by simpa using hES
          by_cases hD : pyStartsWith line "DURATION:" = true
          · obtain ⟨t, ht⟩ := duration_shape hD
            obtain ⟨hB2, hE2, hS3, hES3⟩ := excl_of_D ht
            cases hcol : st.collecting
            · rw [stepLine_duration_skipped st hD hcol] at h
              simp only [Except.ok.injEq] at h
              subst h
              exact ⟨rfl, by simp [hS2, hES2, hcol], by simp [hcol]⟩
            · rcases hv : pyFloat (lastSpaceField line) with _ | v
              · rw [stepLine_duration_malformed st hD hcol hv] at h
                simp at h
              · rw [stepLine_duration_collecting st hD hcol hv] at h
                simp only [Except.ok.injEq] at h
                subst h
                exact ⟨rfl, by simp [hS2, hES2, hcol],
                  by simp [hcol, hD, durationValue, hv]⟩
          · have hD2 : pyStartsWith line "DURATION:" = false := by simpa using hD
            have hB2 : isModuleBeginLine line = false := by simpa using hB
            have hE2 : isModuleEndLine line = false := by simpa using hE
            cases hcol : st.collecting
            · rw [stepLine_notCollecting_other st hB2 hE2 hS2 hcol] at h
              simp only [Except.ok.injEq] at h
              subst h
              exact ⟨rfl, by simp [hS2, hES2, hcol], by simp [hD2]⟩
            · rw [stepLine_collecting_other st hB2 hE2 hES2 hD2 hcol] at h
              simp only [Except.ok.injEq] at h
              subst h
              exact ⟨rfl, by simp [hS2, hES2, hcol], by simp [hD2]⟩

/-- Lifting of `stepLine_ok_invariants` over the whole line loop: a
successful run adds to the iteration total exactly the
specification-side tally of the remaining lines, started from the
state's current window and operation flags. -/
theorem runLines_total_spec (lines : List String) :
    ∀ st st2 : ParseState, runLines st lines = Except.ok st2 →
      st2.total_iteration_time = st.total_iteration_time +
        collectedDurationSum st.iteration_begin st.collecting lines := by
  induction lines with
  | nil =>
    intro st st2 h
    simp only [runLines, Except.ok.injEq] at h
    subst h
    simp [collectedDurationSum]
  | cons line rest ih =>
    intro st st2 h
    cases hIt : st.iteration_begin
    · by_cases hm : isIterMarker line = true
      · rw [show runLines st (line :: rest) =
              runLines { st with iteration_begin := true } rest from by
            simp [runLines, hIt, hm]] at h
        have h2 := ih _ _ h
        simpa [collectedDurationSum, hIt, hm] using h2
      · have hm2 : isIterMarker line = false := by simpa using hm
        rw [show runLines st (line :: rest) = runLines st rest from by
            simp [runLines, hIt, hm2]] at h
        have h2 := ih _ _ h
        simpa [collectedDurationSum, hIt, hm2] using h2
    · by_cases hm : isIterMarker line = true
      · rw [show runLines st (line :: rest) = Except.ok st from by
            simp [runLines, hIt, hm]] at h
        simp only [Except.ok.injEq] at h
        subst h
        simp [collectedDurationSum, hIt, hm]
      · have hm2 : isIterMarker line = false := by simpa using hm
        rcases hstep : stepLine st line with e | st1
        · rw [runLines_cons_err hIt hm2 hstep] at h
          simp at h
        · rw [runLines_cons_step hIt hm2 hstep] at h
          obtain ⟨hib, hcol1, htot1⟩ := stepLine_ok_invariants hstep
          have h2 := ih _ _ h
          rw [hib, hIt] at h2
          by_cases hD : pyStartsWith line "DURATION:" = true
          · obtain ⟨t, ht⟩ := duration_shape hD
            obtain ⟨hB2, hE2, hS2, hES2⟩ := excl_of_D ht
            rw [hS2, hES2] at hcol1
            simp only [Bool.false_eq_true, if_false] at hcol1
            rw [h2, hcol1, htot1, hD]
            simp only [collectedDurationSum, hIt, hm2, hD, if_false, if_true,
              Bool.false_eq_true, and_true]
            cases hcol : st.collecting <;> simp [hcol, add_assoc]
          · have hD2 : pyStartsWith line "DURATION:" = false := by simpa using hD
            rw [hD2] at htot1
            simp only [Bool.false_eq_true, and_false, if_false, add_zero] at htot1
            by_cases hS : pyStartsWith line "[START_SYMBOL]:" = true
            · rw [hS] at hcol1
              simp only [if_true] at hcol1
              rw [h2, hcol1, htot1]
              simp [collectedDurationSum, hIt, hm2, hD2, hS]
            · have hS2 : pyStartsWith line "[START_SYMBOL]:" = false := by simpa using hS
              rw [hS2] at hcol1
              simp only [Bool.false_eq_true, if_false] at hcol1
              by_cases hES : pyStartsWith line "[END_SYMBOL]:" = true
              · rw [hES] at hcol1
                simp only [if_true] at hcol1
                rw [h2, hcol1, htot1]
                simp [collectedDurationSum, hIt, hm2, hD2, hS2, hES]
              · have hES2 : pyStartsWith line "[END_SYMBOL]:" = false := by simpa using hES
                rw [hES2] at hcol1
                simp only [Bool.false_eq_true, if_false] at hcol1
                rw [h2, hcol1, htot1]
                simp [collectedDurationSum, hIt, hm2, hD2, hS2, hES2]

/-!
Claim theorems.
-/

/-- Claim C1. The claim states that inside the iteration window, with an
operation and a module frame open, each DURATION line adds its own value
to the frame's kernel-time accumulator, so k samples d1..dk leave the
accumulator at d1+...+dk. The code instead executes
`module_total_kernel_consumed += total_kernel_consumed` with the already
updated running per-op total: on the log below (marker, one frame, one op,
samples 2 and 3) the frame accumulator ends at 2 + (2 + 3) = 7, not
2 + 3 = 5. -/
theorem C1_module_accumulator_adds_running_total :
    (parse_one_log ["iteration learning loss", "[BEGIN FORWARD]: m", "[START_SYMBOL]: op",
        "DURATION: 2.0", "DURATION: 3.0"]).map
      (fun st => st.module_total_kernel_consumed) = Except.ok 7 ∧ (7 : ℚ) ≠ 2 + 3 := by
  constructor
  · simp [parse_one_log, runLines, stepLine, initState, isIterMarker, containsSub,
      containsSubAux, isModuleBeginLine, isModuleEndLine, pyStartsWith, lastColonField,
      lastSpaceField, pySplit, splitOnChar, rstripNl, pyFloat, digitsToNat, digitVal,
      moduleRow, leafRow, dictAdd, List.isPrefixOf, Bind.bind, Except.bind, Except.map]
    norm_num
  · norm_num

/-- Claim C2, counterexample. The claim states that the iteration total
includes DURATION lines that appear while no operation is open. In the
code, a line reached with `collecting == False` falls into the
`if not collecting: ... continue` block, so an orphan DURATION line is
skipped entirely: after the marker, the single sample 1.5 leaves the
iteration total at 0, not 1.5. -/
theorem C2_counterexample :
    (parse_one_log ["iteration learning loss", "DURATION: 1.5"]).map
      (fun st => st.total_iteration_time) = Except.ok 0 ∧ (0 : ℚ) ≠ 3 / 2 := by
  constructor
  · simp [parse_one_log, runLines, stepLine, initState, isIterMarker, containsSub,
      containsSubAux, isModuleBeginLine, isModuleEndLine, pyStartsWith, lastColonField,
      lastSpaceField, pySplit, splitOnChar, rstripNl, pyFloat, digitsToNat, digitVal,
      moduleRow, leafRow, dictAdd, List.isPrefixOf, Bind.bind, Except.bind, Except.map]
  · norm_num

/-- Claim C2, amended. For every log whose parse succeeds, the returned
IterationTotal equals the sum of the values of the DURATION lines that
appear strictly between the opening and (optional) closing
iteration-marker lines WHILE AN OPERATION IS OPEN, as tallied by the
specification-side `collectedDurationSum` written from these words: a
DURATION line that appears while no operation is open is skipped by the
parser and contributes nothing. -/
theorem C2_iteration_total_counts_only_collected_durations
    (lines : List String) (st2 : ParseState)
    (h : parse_one_log lines = Except.ok st2) :
    st2.total_iteration_time = collectedDurationSum false false lines := by
  have h2 := runLines_total_spec lines initState st2 h
  simpa [initState] using h2

/-- Witness for C2, on a mixed log: the marker, an op open/close around
one 2.0 sample, then an orphan 9.0 sample with no open operation. The
parse succeeds, the theorem applies, and both the returned total and the
specification tally are 2 — the orphan sample is not counted. -/
theorem C2_witness :
    ∃ st2,
      parse_one_log ["iteration learning loss", "[START_SYMBOL]: add", "DURATION: 2.0",
          "[END_SYMBOL]: add", "DURATION: 9.0"] = Except.ok st2 ∧
      st2.total_iteration_time =
        collectedDurationSum false false ["iteration learning loss", "[START_SYMBOL]: add",
          "DURATION: 2.0", "[END_SYMBOL]: add", "DURATION: 9.0"] ∧
      collectedDurationSum false false ["iteration learning loss", "[START_SYMBOL]: add",
          "DURATION: 2.0", "[END_SYMBOL]: add", "DURATION: 9.0"] = 2 := by
  have hp :
      parse_one_log ["iteration learning loss", "[START_SYMBOL]: add", "DURATION: 2.0",
          "[END_SYMBOL]: add", "DURATION: 9.0"] = Except.ok
        { table_data := [leafRow "" " add" 2]
          collecting := false
          iteration_begin := true
          total_kernel_consumed := 0
          op_name := ""
          total_time_dict := [(" add", 2)]
          total_iteration_time := 2
          module_list := []
          module_total_kernel_consumed := 2 } := by
    simp [parse_one_log, runLines, stepLine, initState, isIterMarker, containsSub,
      containsSubAux, isModuleBeginLine, isModuleEndLine, pyStartsWith, lastColonField,
      lastSpaceField, pySplit, splitOnChar, rstripNl, pyFloat, digitsToNat, digitVal,
      moduleRow, leafRow, dictAdd, List.isPrefixOf, Bind.bind, Except.bind, Except.map]
  refine ⟨_, hp, C2_iteration_total_counts_only_collected_durations _ _ hp, ?_⟩
  simp [collectedDurationSum, durationValue, isIterMarker, containsSub, containsSubAux,
    pyStartsWith, lastSpaceField, pySplit, splitOnChar, pyFloat, digitsToNat, digitVal,
    List.isPrefixOf]

/-- Claim C3, counterexample. The claim predicts a module-summary row of
1.5 and an iteration total of 1.5 for Scenario A's log. Because the
`DURATION: 1.5` line arrives while no operation is open, the code skips
it (see C2): the only row is a module-summary row of 0 and the iteration
total is 0. -/
theorem C3_counterexample :
    (parse_one_log ["iteration learning loss", "[BEGIN FORWARD]: net", "DURATION: 1.5",
        "[END FORWARD]: net", "iteration learning loss"]).map
      (fun st => (st.table_data, st.total_time_dict, st.total_iteration_time)) =
      Except.ok ([moduleRow 0], [], 0) ∧
    moduleRow 0 ≠ moduleRow (3 / 2) ∧ (0 : ℚ) ≠ 3 / 2 := by
  refine ⟨?_, ?_, ?_⟩
  · simp [parse_one_log, runLines, stepLine, initState, isIterMarker, containsSub,
      containsSubAux, isModuleBeginLine, isModuleEndLine, pyStartsWith, lastColonField,
      lastSpaceField, pySplit, splitOnChar, rstripNl, pyFloat, digitsToNat, digitVal,
      moduleRow, leafRow, dictAdd, List.isPrefixOf, Bind.bind, Except.bind, Except.map]
  · simp [moduleRow]
    norm_num
  · norm_num

/-- Claim C3, amended. Scenario A's log yields exactly one report row — a
module-summary row with module total time 0, because the duration sample
arrives with no operation open and is skipped — an empty per-operation
aggregate table, and an iteration total of 0. -/
theorem C3_scenarioA_gives_zero_totals :
    (parse_one_log ["iteration learning loss", "[BEGIN FORWARD]: net", "DURATION: 1.5",
        "[END FORWARD]: net", "iteration learning loss"]).map
      (fun st => (st.table_data, st.total_time_dict, st.total_iteration_time)) =
      Except.ok ([moduleRow 0], [], 0) := by
  simp [parse_one_log, runLines, stepLine, initState, isIterMarker, containsSub,
    containsSubAux, isModuleBeginLine, isModuleEndLine, pyStartsWith, lastColonField,
    lastSpaceField, pySplit, splitOnChar, rstripNl, pyFloat, digitsToNat, digitVal,
    moduleRow, leafRow, dictAdd, List.isPrefixOf, Bind.bind, Except.bind, Except.map]

/-- Claim C4, counterexample. The claim states the parse fails iff the
END line's name is not a substring of the open operation's name. Here
the END line's name `" a"` IS a substring of the open operation's name
`" ab"`, so by the claim the parse should continue and emit a leaf row,
yet the code — which tests `op_name in end_name`, the opposite
direction — raises the symbol-mismatch exception. -/
theorem C4_counterexample :
    parse_one_log ["iteration learning loss", "[START_SYMBOL]: ab", "[END_SYMBOL]: a"] =
      Except.error (ParseErr.symbolMismatch " a" " ab") ∧
    containsSub " ab" " a" = true := by
  constructor
  · simp [parse_one_log, runLines, stepLine, initState, isIterMarker, containsSub,
      containsSubAux, isModuleBeginLine, isModuleEndLine, pyStartsWith, lastColonField,
      lastSpaceField, pySplit, splitOnChar, rstripNl, pyFloat, digitsToNat, digitVal,
      moduleRow, leafRow, dictAdd, List.isPrefixOf, Bind.bind, Except.bind, Except.map]
  · decide

/-- Claim C4, amended. With an operation open, an `[END_SYMBOL]:` line
fails with the symbol-mismatch error if and only if the OPEN OPERATION's
name is not a substring of (nor equal to) the END line's name — the
substring test runs in the direction opposite to the claim's; when the
open operation's name is a substring of the END name, parsing continues
and the leaf row is emitted. -/
theorem C4_end_symbol_substring_direction (st : ParseState) (line : String)
    (hcol : st.collecting = true)
    (hl : pyStartsWith line "[END_SYMBOL]:" = true) :
    (containsSub (lastColonField line) st.op_name = false →
        stepLine st line =
          Except.error (ParseErr.symbolMismatch (lastColonField line) st.op_name)) ∧
      (containsSub (lastColonField line) st.op_name = true →
        stepLine st line = Except.ok
          { st with
              table_data := st.table_data ++
                [leafRow (st.module_list.headD "") st.op_name st.total_kernel_consumed]
              total_time_dict := dictAdd st.total_time_dict st.op_name st.total_kernel_consumed
              op_name := ""
              total_kernel_consumed := 0
              collecting := false }) :=
  ⟨fun hsub => stepLine_endSymbol_mismatch st hl hcol hsub,
    fun hsub => stepLine_endSymbol_match st hl hcol hsub⟩

/-- Witness for C4, at the open operation `" ab"` and the line
`"[END_SYMBOL]: ab"`. -/
theorem C4_witness :
    (containsSub (lastColonField "[END_SYMBOL]: ab")
          ({ initState with collecting := true, op_name := " ab" } : ParseState).op_name =
        false →
      stepLine { initState with collecting := true, op_name := " ab" } "[END_SYMBOL]: ab" =
        Except.error (ParseErr.symbolMismatch (lastColonField "[END_SYMBOL]: ab")
          ({ initState with collecting := true, op_name := " ab" } : ParseState).op_name)) ∧
    (containsSub (lastColonField "[END_SYMBOL]: ab")
          ({ initState with collecting := true, op_name := " ab" } : ParseState).op_name =
        true →
      stepLine { initState with collecting := true, op_name := " ab" } "[END_SYMBOL]: ab" =
        Except.ok
          { ({ initState with collecting := true, op_name := " ab" } : ParseState) with
              table_data :=
                ({ initState with collecting := true, op_name := " ab" } :
                    ParseState).table_data ++
                  [leafRow
                    (({ initState with collecting := true, op_name := " ab" } :
                        ParseState).module_list.headD "")
                    ({ initState with collecting := true, op_name := " ab" } :
                      ParseState).op_name
                    ({ initState with collecting := true, op_name := " ab" } :
                      ParseState).total_kernel_consumed]
              total_time_dict :=
                dictAdd
                  ({ initState with collecting := true, op_name := " ab" } :
                    ParseState).total_time_dict
                  ({ initState with collecting := true, op_name := " ab" } :
                    ParseState).op_name
                  ({ initState with collecting := true, op_name := " ab" } :
                    ParseState).total_kernel_consumed
              op_name := ""
              total_kernel_consumed := 0
              collecting := false }) :=
  C4_end_symbol_substring_direction
    { initState with collecting := true, op_name := " ab" } "[END_SYMBOL]: ab" rfl (by decide)

/-- Claim C5. The pre-backward hook writes
`"[BEGIN BACKWARD]: {}_backward"` lines, but the parser's begin-backward
test matches the literal `"[BEGINE BACKWARD]"` (extra `E`): the emitted
line is not recognized as a module-begin event, so feeding it to the
parser inside an iteration window pushes no module frame. -/
theorem C5_backward_begin_tag_not_recognized :
    pyStartsWith (pre_backward_log_line "net") "[BEGINE BACKWARD]" = false ∧
    isModuleBeginLine (pre_backward_log_line "net") = false ∧
    (parse_one_log ["iteration learning loss", pre_backward_log_line "net"]).map
      (fun st => st.module_list) = Except.ok [] := by
  refine ⟨by decide, by decide, ?_⟩
  simp [parse_one_log, runLines, stepLine, initState, isIterMarker, containsSub,
    containsSubAux, isModuleBeginLine, isModuleEndLine, pyStartsWith, lastColonField,
    lastSpaceField, pySplit, splitOnChar, rstripNl, pyFloat, digitsToNat, digitVal,
    moduleRow, leafRow, dictAdd, List.isPrefixOf, Bind.bind, Except.bind, Except.map,
    pre_backward_log_line]

/-- Claim C6, counterexample. The claim's log opens with
`"iter learn loss"`, which contains neither the substring `"iteration"`
nor `"learning"`, so it is not an iteration marker: the parser never
enters the iteration window and returns empty report rows, an empty
aggregate table and an iteration total of 0 — not the leaf row, the
aggregate `add ↦ 5` and the total 5 the claim states. -/
theorem C6_counterexample :
    (parse_one_log ["iter learn loss", "[START_SYMBOL]: add", "DURATION: 2.0",
        "DURATION: 3.0", "[END_SYMBOL]: add"]).map
      (fun st => (st.table_data, st.total_time_dict, st.total_iteration_time,
        st.iteration_begin)) = Except.ok ([], [], 0, false) ∧
    isIterMarker "iter learn loss" = false ∧ (0 : ℚ) ≠ 5 := by
  refine ⟨?_, by decide, by norm_num⟩
  simp [parse_one_log, runLines, stepLine, initState, isIterMarker, containsSub,
    containsSubAux, isModuleBeginLine, isModuleEndLine, pyStartsWith, lastColonField,
    lastSpaceField, pySplit, splitOnChar, rstripNl, pyFloat, digitsToNat, digitVal,
    moduleRow, leafRow, dictAdd, List.isPrefixOf, Bind.bind, Except.bind, Except.map]

/-- Claim C6, amended. The log's first line `"iter learn loss"` is not
an iteration marker (the marker test requires the substrings
`"iteration"`, `"learning"` and `"loss"`), so the parser never leaves
the awaiting-iteration state: the parse succeeds with no report rows, an
empty aggregate table and an iteration total of 0. -/
theorem C6_no_marker_no_collection :
    (parse_one_log ["iter learn loss", "[START_SYMBOL]: add", "DURATION: 2.0",
        "DURATION: 3.0", "[END_SYMBOL]: add"]).map
      (fun st => (st.table_data, st.total_time_dict, st.total_iteration_time,
        st.iteration_begin)) = Except.ok ([], [], 0, false) := by
  simp [parse_one_log, runLines, stepLine, initState, isIterMarker, containsSub,
    containsSubAux, isModuleBeginLine, isModuleEndLine, pyStartsWith, lastColonField,
    lastSpaceField, pySplit, splitOnChar, rstripNl, pyFloat, digitsToNat, digitVal,
    moduleRow, leafRow, dictAdd, List.isPrefixOf, Bind.bind, Except.bind, Except.map]

/-- Claim C7. Whenever the parser is inside the iteration window with an
open module frame and the next line is a module END event whose extracted
name differs from the top frame's name, the rest of the parse returns the
nesting-violation error: the parse aborts at that line, and in the
`Except` model an error carries no state, so no result tables are
produced. -/
theorem C7_mismatched_module_end_aborts (st : ParseState) (line : String)
    (rest : List String) (top : String) (tl : List String)
    (hIt : st.iteration_begin = true) (hm : isIterMarker line = false)
    (hEnd : isModuleEndLine line = true)
    (hstack : st.module_list = top :: tl)
    (hname : lastColonField line ≠ top) :
    runLines st (line :: rest) = Except.error ParseErr.nestingViolation :=
  runLines_cons_err hIt hm (stepLine_moduleEnd_mismatch st hEnd hstack hname)

/-- Witness for C7: with the frame `" net"` open, the line
`"[END FORWARD]: other"` aborts the parse with the nesting-violation
error. -/
theorem C7_witness :
    runLines { initState with iteration_begin := true, module_list := [" net"] }
      ["[END FORWARD]: other"] = Except.error ParseErr.nestingViolation :=
  C7_mismatched_module_end_aborts
    { initState with iteration_begin := true, module_list := [" net"] }
    "[END FORWARD]: other" [] " net" [] rfl (by decide) (by decide) rfl (by decide)

/-- Claim C8. On a module BEGIN line, a summary row is appended if and
only if at least one module frame is open and the module kernel-time
accumulator is strictly positive, and in the resulting state the
extracted name is pushed and the accumulator is zero; on a module END
line whose name matches the open frame, a summary row is appended
unconditionally — even when the accumulator is zero — and the
accumulator is reset. -/
theorem C8_module_summary_flush_policy (st : ParseState) (line : String) :
    (isModuleBeginLine line = true →
      stepLine st line = Except.ok
        { st with
            table_data := st.table_data ++
              (if 0 < st.module_list.length ∧ 0 < st.module_total_kernel_consumed then
                [moduleRow st.module_total_kernel_consumed]
              else [])
            module_list := lastColonField line :: st.module_list
            module_total_kernel_consumed := 0 }) ∧
    (isModuleEndLine line = true → ∀ tl, st.module_list = lastColonField line :: tl →
      stepLine st line = Except.ok
        { st with
            table_data := st.table_data ++ [moduleRow st.module_total_kernel_consumed]
            module_list := tl
            module_total_kernel_consumed := 0 }) := by
  constructor
  · intro h
    by_cases hc : 0 < st.module_list.length ∧ 0 < st.module_total_kernel_consumed
    · rw [if_pos hc]
      exact stepLine_moduleBegin_flush st h hc
    · rw [if_neg hc]
      rw [stepLine_moduleBegin_noflush st h hc]
      simp
  · intro h tl hstack
    exact stepLine_moduleEnd_match st h hstack

/-- Witness for C8: a BEGIN line on a state with one open frame and
accumulator 2 flushes the row `moduleRow 2` and pushes `" y"`; an END
line matching the single open frame `" y"` flushes `moduleRow 0` even
though the accumulator is zero. -/
theorem C8_witness :
    stepLine { initState with module_list := [" x"], module_total_kernel_consumed := 2 }
        "[BEGIN FORWARD]: y" = Except.ok
      { initState with
          table_data := [moduleRow 2]
          module_list := [" y", " x"]
          module_total_kernel_consumed := 0 } ∧
    stepLine { initState with module_list := [" y"] } "[END FORWARD]: y" = Except.ok
      { initState with
          table_data := [moduleRow 0]
          module_list := []
          module_total_kernel_consumed := 0 } := by
  constructor
  · rw [(C8_module_summary_flush_policy
        { initState with module_list := [" x"], module_total_kernel_consumed := 2 }
        "[BEGIN FORWARD]: y").1 (by decide)]
    simp [initState, lastColonField, pySplit, splitOnChar, rstripNl]
  · rw [(C8_module_summary_flush_policy { initState with module_list := [" y"] }
        "[END FORWARD]: y").2 (by decide) [] (by decide)]
    simp [initState]

/-- Claim C9. Inside the iteration window, a module END line processed
while the frame stack is empty makes the parse fail with the
out-of-range indexing error (Python's `IndexError` from
`module_list[-1]` on an empty list), not the nesting-consistency
exception used for name mismatches; in the source the module-summary row
is appended to `table_data` before the failing index access, and the
abort discards it along with the rest of the state. -/
theorem C9_module_end_on_empty_stack_index_error (st : ParseState) (line : String)
    (rest : List String)
    (hIt : st.iteration_begin = true) (hm : isIterMarker line = false)
    (hEnd : isModuleEndLine line = true)
    (hstack : st.module_list = []) :
    runLines st (line :: rest) = Except.error ParseErr.indexOutOfRange :=
  runLines_cons_err hIt hm (stepLine_moduleEnd_empty st hEnd hstack)

/-- Witness for C9: an `"[END FORWARD]: net"` line with no open frame
aborts with the indexing error. -/
theorem C9_witness :
    runLines { initState with iteration_begin := true } ["[END FORWARD]: net"] =
      Except.error ParseErr.indexOutOfRange :=
  C9_module_end_on_empty_stack_index_error { initState with iteration_begin := true }
    "[END FORWARD]: net" [] rfl (by decide) (by decide) rfl

/-- Claim C10. While an operation is open (`collecting` is true), a
further `[START_SYMBOL]:` line leaves the parser state completely
unchanged — the open operation's name and accumulated time are
untouched, so later duration samples keep accumulating onto the first
operation, and the state never holds more than one open operation. -/
theorem C10_nested_start_symbol_ignored (st : ParseState) (line : String)
    (hcol : st.collecting = true)
    (h : pyStartsWith line "[START_SYMBOL]:" = true) :
    stepLine st line = Except.ok st :=
  stepLine_startSymbol_ignored st h hcol

/-- Witness for C10: with the operation `" add"` open, the line
`"[START_SYMBOL]: mul"` leaves the state unchanged. -/
theorem C10_witness :
    stepLine { initState with collecting := true, op_name := " add" }
        "[START_SYMBOL]: mul" =
      Except.ok { initState with collecting := true, op_name := " add" } :=
  C10_nested_start_symbol_ignored
    { initState with collecting := true, op_name := " add" }
    "[START_SYMBOL]: mul" rfl (by decide)

end TorchProfiling
